import Mathlib

/-!
A verification development for the go-checkpoint "phone home" client.

The repository's client-side glue (`homeDir`, `configDir`, `getSigfile`,
`getCheckInputs`, `callReport`, `callCheckOnceNow`, `Start`) is translated
directly from the source.  The core exchange file (`check`, `checkInterval`,
`randomStagger`, `reportRequest`, `report`, the wire structs) is not among
the available source files; those definitions are modelled from the spec, as
marked in their doc comments.  Effects (network round trips, file reads and
writes, callback invocations) are made observable as explicit event lists.
-/

namespace Checkpoint

/-- Observable effects of an operation. -/
inductive Event
  | networkCheck (url : String)
  | networkReport (url : String)
  | fileRead (path : String)
  | fileWrite (path : String)
  | callbackRun
deriving DecidableEq

/-- Environment variables read by the client.  Only the recognized toggles are
modelled; an unset variable is the empty string, as with `os.Getenv`. -/
structure Env where
  CHECKPOINT_DISABLE : String := ""
  CHECKPOINT_URL : String := ""
  CHECKPOINT_TIMEOUT : String := ""
  HOME : String := ""
  USERPROFILE : String := ""
deriving DecidableEq

/-- Modelled from the spec: the Disable Gate reads the disable environment
toggle; any non-empty value disables every operation. -/
def isDisabled (env : Env) : Bool := env.CHECKPOINT_DISABLE != ("")

/-- Immutable input of a single check (`CheckParams` in the source's data
model).  The Go field `Type` is kept under the same name. -/
structure CheckParams where
  Product : String := ""
  Version : String := ""
  Signature : String := ""
  CacheFile : String := ""
  «Type» : String := ""
deriving DecidableEq

/-- Decoded response of a check (`CheckResponse` in the source's data model).
Alert record contents are immaterial to the claims and kept as strings. -/
structure CheckResponse where
  Product : String := ""
  CurrentVersion : String := ""
  CurrentReleaseDate : Int := 0
  CurrentDownloadURL : String := ""
  CurrentChangelogURL : String := ""
  ProjectWebsite : String := ""
  Outdated : Bool := false
  Alerts : List String := []
deriving DecidableEq

/-- Telemetry event payload (`ReportParams` in the source's data model).
Times are epoch seconds. -/
structure ReportParams where
  Signature : String := ""
  Product : String := ""
  Version : String := ""
  StartTime : Int := 0
  EndTime : Int := 0
  SignatureFile : String := ""
  «Type» : String := ""
deriving DecidableEq

/-- On-disk cache record: a stored expiry (epoch seconds) plus the cached
response, exactly as in the spec's data model. -/
structure CacheRecord where
  Expiry : Int
  Response : CheckResponse
deriving DecidableEq

/-- The world a single operation runs against: environment, current time,
cache-file contents (keyed by path), and the remote service's behaviour for
the next round trip (`none` models a transport or decode failure). -/
structure World where
  env : Env := {}
  now : Int := 0
  cache : List (String × CacheRecord) := []
  serverResult : Option CheckResponse := none
  serverTTL : Option Int := none
  reportOk : Bool := true
deriving DecidableEq

/-- Filesystem directory facts needed by `configDir`: what `os.Stat` answers
for a path, and whether `os.Mkdir` would succeed there. -/
inductive StatResult
  | found
  | notExist
  | statError
deriving DecidableEq

structure Fs where
  stat : String → StatResult
  mkdirOk : String → Bool

/-- Translated from the source: `homeDir` returns `$HOME` when non-empty and
`$USERPROFILE` otherwise. -/
def homeDir (env : Env) : String :=
  if env.HOME ≠ ("") then env.HOME else env.USERPROFILE

/-- Translated from the source: `configDir` stats `<home>/.soloio`, returns it
if present, creates it if absent, and fails on a stat or mkdir error. -/
def configDir (fs : Fs) (env : Env) : Except Unit String :=
  match fs.stat (homeDir env ++ ("/.soloio")) with
  | StatResult.found => Except.ok (homeDir env ++ ("/.soloio"))
  | StatResult.notExist =>
      if fs.mkdirOk (homeDir env ++ ("/.soloio")) then
        Except.ok (homeDir env ++ ("/.soloio"))
      else Except.error ()
  | StatResult.statError => Except.error ()

/-- Translated from the source: `getSigfile` defaults to `<home>/.soloio.sig`
and overrides it with `<configDir>/soloio.sig` when `configDir` succeeds.
Note the file name is the fixed string `soloio.sig`; no product name enters. -/
def getSigfile (fs : Fs) (env : Env) : String :=
  match configDir fs env with
  | Except.ok d => d ++ ("/soloio.sig")
  | Except.error _ => homeDir env ++ ("/.soloio.sig")

/-- Modelled from the spec: the default checkpoint endpoint constant lives in
the source file that is not available; its exact value is immaterial. -/
def defaultCheckpointURL : String := "https://checkpoint.solo.io"

/-- Modelled from the spec: the endpoint is overridable through the URL
environment toggle, for testing against a local server. -/
def checkpointEndpoint (env : Env) : String :=
  if env.CHECKPOINT_URL ≠ ("") then env.CHECKPOINT_URL else defaultCheckpointURL

/-- Modelled from the spec: the URL a check round trip is sent to.  The exact
path shape is immaterial to the claims; only the endpoint and product enter. -/
def checkEndpointURL (env : Env) (p : CheckParams) : String :=
  checkpointEndpoint env ++ ("/v1/check/") ++ p.Product

/-- Dotted version strings parsed into numeric parts; a non-numeric part
counts as zero. -/
def parseVersionParts (s : String) : List Nat :=
  (s.splitOn (".")).map (fun part => part.toNat?.getD 0)

/-- Lexicographic order on version part lists, a missing part reading as 0. -/
def verLt : List Nat → List Nat → Bool
  | [], [] => false
  | [], b :: bs => decide (0 < b) || verLt [] bs
  | _ :: _, [] => false
  | a :: as, b :: bs => decide (a < b) || (decide (a = b) && verLt as bs)

/-- Modelled from the spec: `Outdated` is computed by comparing the response's
current version to the caller's version with semantic, not lexical, order. -/
def versionOutdated (currentVersion callerVersion : String) : Bool :=
  verLt (parseVersionParts callerVersion) (parseVersionParts currentVersion)

/-- The response as returned by a live round trip: the decoded body with
`Outdated` recomputed against the caller's version. -/
def applyOutdated (resp : CheckResponse) (p : CheckParams) : CheckResponse :=
  { resp with Outdated := versionOutdated resp.CurrentVersion p.Version }

/-- Modelled from the spec: the conservative default cache TTL applied when
the server omits one (several hours; the value is a stand-in). -/
def defaultCacheTTL : Int := 48 * 60 * 60

/-- Association-list lookup standing in for reading one cache file. -/
def lookupCache : List (String × CacheRecord) → String → Option CacheRecord
  | [], _ => none
  | (k, v) :: rest, path => if k = path then some v else lookupCache rest path

/-- Modelled from the spec: `readCache` returns a cached response only when
the record exists and its expiry is in the future; anything else is a miss. -/
def readCache (w : World) (path : String) : Option CheckResponse :=
  match lookupCache w.cache path with
  | none => none
  | some entry => if w.now < entry.Expiry then some entry.Response else none

/-- Modelled from the spec: `writeCache` stores `{Expiry, Response}` at the
cache path, overwriting any previous record for that path. -/
def writeCache (cache : List (String × CacheRecord)) (path : String)
    (entry : CacheRecord) : List (String × CacheRecord) :=
  (path, entry) :: cache

/-- Modelled from the spec: the live part of a check — one network round trip,
`Outdated` recomputation, and a write-through to the cache when configured.
`evs` carries the events of the preceding cache probe. -/
def checkRemote (w : World) (p : CheckParams) (evs : List Event) :
    Except String CheckResponse × World × List Event :=
  let netEv := Event.networkCheck (checkEndpointURL w.env p)
  match w.serverResult with
  | none => (Except.error ("transport error"), w, evs ++ [netEv])
  | some resp =>
    let processed := applyOutdated resp p
    if p.CacheFile = ("") then
      (Except.ok processed, w, evs ++ [netEv])
    else
      let ttl := w.serverTTL.getD defaultCacheTTL
      (Except.ok processed,
       { w with cache := writeCache w.cache p.CacheFile ⟨w.now + ttl, processed⟩ },
       evs ++ [netEv, Event.fileWrite p.CacheFile])

/-- Modelled from the spec: `check` short-circuits to an empty response when
the Disable Gate is set, consults the cache when a cache file is configured,
and otherwise performs the live round trip. -/
def check (w : World) (p : CheckParams) :
    Except String CheckResponse × World × List Event :=
  if isDisabled w.env then (Except.ok {}, w, [])
  else if p.CacheFile = ("") then
    checkRemote w p []
  else
    match readCache w p.CacheFile with
    | some resp => (Except.ok resp, w, [Event.fileRead p.CacheFile])
    | none => checkRemote w p [Event.fileRead p.CacheFile]

/-- Sequential checks with identical parameters, the world threaded through;
each entry of the time list gives the clock reading of one call. -/
def checkSeq (w : World) (p : CheckParams) :
    List Int → List (Except String CheckResponse × List Event) × World
  | [] => ([], w)
  | t :: ts =>
    match check { w with now := t } p with
    | (res, w1, evs) =>
      match checkSeq w1 p ts with
      | (rest, w2) => ((res, evs) :: rest, w2)

def isNetworkEv : Event → Bool
  | Event.networkCheck _ => true
  | Event.networkReport _ => true
  | _ => false

def isCheckEv : Event → Bool
  | Event.networkCheck _ => true
  | _ => false

def isReportEv : Event → Bool
  | Event.networkReport _ => true
  | _ => false

/-- Modelled from the spec and the in-source stagger test: `randomStagger`
returns three quarters of the interval plus the random draw reduced modulo
`interval / divisor`.  For a 24-hour interval and divisor 2 this yields
delays in `[18h, 30h)`, the range the spec and the test assert.  The spec's
prose formula `interval/2 + random(0, interval)` is inconsistent with that
range (it would reach from 12h up to 36h); see the Claim C5 theorems. -/
def randomStagger (interval divisor draw : Nat) : Nat :=
  3 * (interval / 4) + draw % (interval / divisor)

/-- Follows the spec's prose words only, for comparison with `randomStagger`:
the stagger as `interval/2` plus a random value in `[0, interval)`. -/
def staggerSpecFormula (interval draw : Nat) : Nat :=
  interval / 2 + draw % interval

/-- One hour in nanoseconds, the unit of Go durations. -/
def hourNs : Nat := 3600 * 1000000000

/-- A JSON leaf value; the report body only carries strings and integers. -/
inductive JsonVal
  | str (s : String)
  | num (n : Int)
deriving DecidableEq

/-- An HTTP request as built (not sent) by the report exchange. -/
structure HttpRequest where
  method : String
  path : String
  body : List (String × JsonVal)
deriving DecidableEq

def lookupJson : List (String × JsonVal) → String → Option JsonVal
  | [], _ => none
  | (k, v) :: rest, key => if k = key then some v else lookupJson rest key

def jsonFieldStr (body : List (String × JsonVal)) (key : String) : String :=
  match lookupJson body key with
  | some (JsonVal.str s) => s
  | _ => ("")

def jsonFieldNum (body : List (String × JsonVal)) (key : String) : Int :=
  match lookupJson body key with
  | some (JsonVal.num n) => n
  | _ => 0

/-- Modelled from the spec: the full `ReportParams` JSON-encoded as the
request body, one field per struct member. -/
def encodeReportParams (r : ReportParams) : List (String × JsonVal) :=
  [(("signature"), JsonVal.str r.Signature),
   (("product"), JsonVal.str r.Product),
   (("version"), JsonVal.str r.Version),
   (("start_time"), JsonVal.num r.StartTime),
   (("end_time"), JsonVal.num r.EndTime),
   (("signature_file"), JsonVal.str r.SignatureFile),
   (("type"), JsonVal.str r.«Type»)]

/-- Decoding a report body back into `ReportParams`; a missing or ill-typed
field decodes to the zero value, as `json.Unmarshal` does. -/
def decodeReportParams (body : List (String × JsonVal)) : ReportParams :=
  { Signature := jsonFieldStr body ("signature"),
    Product := jsonFieldStr body ("product"),
    Version := jsonFieldStr body ("version"),
    StartTime := jsonFieldNum body ("start_time"),
    EndTime := jsonFieldNum body ("end_time"),
    SignatureFile := jsonFieldStr body ("signature_file"),
    «Type» := jsonFieldStr body ("type") }

/-- Modelled from the spec: `reportRequest` builds a POST to
`<endpoint>/telemetry/<product>` carrying the JSON-encoded params; pure
construction with no network I/O, hence the empty event list. -/
def reportRequest (env : Env) (r : ReportParams) :
    Except String HttpRequest × List Event :=
  (Except.ok { method := ("POST"),
               path := checkpointEndpoint env ++ ("/telemetry/") ++ r.Product,
               body := encodeReportParams r },
   [])

/-- Modelled from the spec: the URL a telemetry report is POSTed to. -/
def reportURL (env : Env) (product : String) : String :=
  checkpointEndpoint env ++ ("/telemetry/") ++ product

/-- Modelled from the spec: `report` sends the built request, short-circuits
under the Disable Gate, and surfaces transport failure as an error. -/
def report (w : World) (p : ReportParams) : Except String Unit × List Event :=
  if isDisabled w.env then (Except.ok (), [])
  else
    ((if w.reportOk then Except.ok () else Except.error ("transport error")),
     [Event.networkReport (reportURL w.env p.Product)])

/-- Translated from the source: `getCheckInputs` obtains a signature — the
stored one when readable, a freshly generated one otherwise, and the fixed
sentinel when both fail — and returns check params plus the notification
callback.  The outcomes of `checkSignature` and `generateSignature` (whose
bodies are in the missing source file) are passed in as `s1` and `s2`. -/
def getCheckInputs (product version : String) (s1 s2 : Except Unit String) :
    CheckParams × (CheckResponse → Option String → Option String) :=
  let signature :=
    match s1 with
    | Except.ok s => s
    | Except.error _ =>
      match s2 with
      | Except.ok s => s
      | Except.error _ => "siggenerror"
  ({ Product := product, Version := version, Signature := signature,
     «Type» := ("c1") },
   fun resp err =>
     match err with
     | some _ => none
     | none =>
       if resp.Outdated && resp.CurrentVersion != ("")
            && resp.CurrentVersion != version then
         some (("A new version of ") ++ product ++ (" is available. Please visit ")
               ++ resp.CurrentDownloadURL ++ ("."))
       else none)

/-- File events of the signature acquisition inside `getCheckInputs`: the
signature file is always probed, and a failed read triggers the generate
path, which persists a fresh signature. -/
def getCheckInputsEvents (sigfile : String) (s1 : Except Unit String) : List Event :=
  Event.fileRead sigfile ::
    (match s1 with
     | Except.ok _ => []
     | Except.error _ => [Event.fileWrite sigfile])

/-- The interval scheduler's control handle together with the construction
state it captured (Disable Gate read once at construction). -/
structure Scheduler where
  disabled : Bool
  params : CheckParams
  intervalNs : Nat
  stopped : Bool
deriving DecidableEq

/-- Modelled from the spec: `checkInterval` reads the Disable Gate at
construction time and returns a control handle; the tick loop is `schedulerTick`
and closing the handle is `closeHandle`. -/
def checkInterval (env : Env) (p : CheckParams) (intervalNs : Nat) : Scheduler :=
  { disabled := isDisabled env, params := p, intervalNs := intervalNs,
    stopped := false }

/-- Closing the control handle stops all future ticks; always succeeds. -/
def closeHandle (s : Scheduler) : Scheduler := { s with stopped := true }

/-- Modelled from the spec: one scheduler tick — a disabled or stopped
scheduler does nothing; otherwise it runs a check and hands the outcome to
the callback. -/
def schedulerTick (s : Scheduler) (w : World) : World × List Event :=
  if s.disabled || s.stopped then (w, [])
  else
    match check w s.params with
    | (_, w1, evs) => (w1, evs ++ [Event.callbackRun])

/-- The event trace of `n` consecutive scheduler ticks. -/
def schedulerRun (s : Scheduler) (w : World) : Nat → World × List Event
  | 0 => (w, [])
  | n + 1 =>
    match schedulerTick s w with
    | (w1, evs) =>
      match schedulerRun s w1 n with
      | (w2, evs') => (w2, evs ++ evs')

/-- Modelled from the spec: the fixed interval of the ongoing version check;
the constant's exact value lives in the missing source file. -/
def VersionCheckInterval : Nat := 24 * hourNs

/-- Translated from the source: `callReport` builds `ReportParams` with the
signature file path and type tag `r1` and sends the report, discarding its
error.  Only the event trace is kept, exactly because the error is dropped. -/
def callReport (w : World) (product version : String) (startT : Int)
    (sigfile : String) : List Event :=
  (report w { Product := product, Version := version, StartTime := startT,
              EndTime := w.now, SignatureFile := sigfile,
              «Type» := ("r1") }).2

/-- Translated from the source: `callCheckOnceNow` builds the check inputs,
runs one immediate check and feeds the outcome to the callback. -/
def callCheckOnceNow (w : World) (product version : String) (sigfile : String)
    (s1 s2 : Except Unit String) : World × List Event × Option String :=
  match getCheckInputs product version s1 s2 with
  | (params, cb) =>
    match check w params with
    | (res, w1, evs) =>
      let msg :=
        match res with
        | Except.ok r => cb r none
        | Except.error e => cb {} (some e)
      (w1, getCheckInputsEvents sigfile s1 ++ evs ++ [Event.callbackRun], msg)

/-- What a `Start` call produces: the events on the caller's own path, the
events of the spawned background sequence (report first, then the immediate
check), and the interval scheduler's control handle. -/
structure StartResult where
  callerEvents : List Event
  backgroundEvents : List Event
  handle : Scheduler
deriving DecidableEq

/-- Translated from the source: `Start` launches the interval scheduler
(`callCheck`) on the caller's path — which only builds inputs and constructs
the handle — and spawns a background sequence running `callReport` and then
`callCheckOnceNow`.  `s1`/`s2` are the signature read/generate outcomes. -/
def Start (fs : Fs) (w : World) (name version : String)
    (s1 s2 : Except Unit String) : StartResult :=
  match getCheckInputs name version s1 s2 with
  | (params, _) =>
    let sigfile := getSigfile fs w.env
    let handle := checkInterval w.env params VersionCheckInterval
    let repEvs := callReport w name version w.now sigfile
    match callCheckOnceNow w name version sigfile s1 s2 with
    | (_, onceEvs, _) =>
      { callerEvents := getCheckInputsEvents sigfile s1,
        backgroundEvents := repEvs ++ onceEvs,
        handle := handle }

/-- A deterministic server response mirroring the one the repository's test
server serves. -/
def testServerResponse : CheckResponse :=
  { Product := ("test"), CurrentVersion := ("1.0"),
    CurrentDownloadURL := ("https://www.solo.io"),
    CurrentChangelogURL := ("https://www.solo.io"),
    ProjectWebsite := ("https://www.solo.io") }

/-- Check params as used throughout the repository's tests. -/
def testParams : CheckParams :=
  { Product := ("test"), Version := ("1.0"), CacheFile := ("/tmp/checkpoint/cache") }

/-- A live (non-disabled) world whose server answers deterministically. -/
def testWorld : World :=
  { serverResult := some testServerResponse }

/-- A world with the disable toggle set. -/
def disabledWorld : World :=
  { env := { CHECKPOINT_DISABLE := ("1") }, serverResult := some testServerResponse }

/-- A filesystem where the config directory exists. -/
def fsAllOk : Fs := { stat := fun _ => StatResult.found, mkdirOk := fun _ => true }

/-- A home directory for concrete sigfile computations. -/
def envHome : Env := { HOME := ("/home/u") }

/-- Claim C1: with the Disable Gate set, `check` returns the zero-value
response and no error for every parameter set, leaves the world untouched and
performs no network or file access (empty event trace). -/
theorem check_disabled_returns_zero (w : World) (p : CheckParams)
    (hd : isDisabled w.env = true) :
    check w p = (Except.ok ({} : CheckResponse), w, ([] : List Event)) := by
  simp [check, hd]

theorem check_disabled_returns_zero_witness :
    check disabledWorld testParams
      = (Except.ok ({} : CheckResponse), disabledWorld, ([] : List Event)) :=
  check_disabled_returns_zero disabledWorld testParams rfl

theorem check_cache_hit_eq (w : World) (p : CheckParams) (e : Int)
    (r : CheckResponse) (hdis : isDisabled w.env = false)
    (hcf : ¬ p.CacheFile = (""))
    (hfound : lookupCache w.cache p.CacheFile = some ⟨e, r⟩)
    (hfresh : w.now < e) :
    check w p = (Except.ok r, w, [Event.fileRead p.CacheFile]) := by
  simp [check, hdis, hcf, readCache, hfound, hfresh]

theorem check_cache_miss_eq (w : World) (p : CheckParams) (resp : CheckResponse)
    (hdis : isDisabled w.env = false) (hcf : ¬ p.CacheFile = (""))
    (hmiss : lookupCache w.cache p.CacheFile = none)
    (hsrv : w.serverResult = some resp) :
    check w p =
      (Except.ok (applyOutdated resp p),
       { w with cache := (writeCache w.cache p.CacheFile
           ⟨w.now + w.serverTTL.getD defaultCacheTTL, applyOutdated resp p⟩) },
       [Event.fileRead p.CacheFile, Event.networkCheck (checkEndpointURL w.env p),
        Event.fileWrite p.CacheFile]) := by
  simp [check, checkRemote, hdis, hcf, readCache, hmiss, hsrv]

/-- Claim C2: starting from a cold cache, five sequential `check` calls with
the same parameters, all before the first call's stored expiry, return the
same response every time, make exactly one network call in total, and the
calls after the first make none. -/
theorem check_five_calls_one_network (w : World) (p : CheckParams)
    (resp : CheckResponse) (t1 t2 t3 t4 t5 : Int)
    (hdis : isDisabled w.env = false)
    (hcf : ¬ p.CacheFile = (""))
    (hmiss : lookupCache w.cache p.CacheFile = none)
    (hsrv : w.serverResult = some resp)
    (h2 : t2 < t1 + w.serverTTL.getD defaultCacheTTL)
    (h3 : t3 < t1 + w.serverTTL.getD defaultCacheTTL)
    (h4 : t4 < t1 + w.serverTTL.getD defaultCacheTTL)
    (h5 : t5 < t1 + w.serverTTL.getD defaultCacheTTL) :
    ∃ r : CheckResponse,
      ((checkSeq w p [t1, t2, t3, t4, t5]).1).map Prod.fst
        = [Except.ok r, Except.ok r, Except.ok r, Except.ok r, Except.ok r]
      ∧ (((checkSeq w p [t1, t2, t3, t4, t5]).1).map Prod.snd).flatten.countP
          isNetworkEv = 1
      ∧ ∀ pr ∈ ((checkSeq w p [t1, t2, t3, t4, t5]).1).drop 1,
          pr.2.countP isNetworkEv = 0 := by
  have e1 : check { w with now := t1 } p =
      (Except.ok (applyOutdated resp p),
       { w with
         now := t1,
         cache := (writeCache w.cache p.CacheFile
           ⟨t1 + w.serverTTL.getD defaultCacheTTL, applyOutdated resp p⟩) },
       [Event.fileRead p.CacheFile, Event.networkCheck (checkEndpointURL w.env p),
        Event.fileWrite p.CacheFile]) := by
    simpa using check_cache_miss_eq { w with now := t1 } p resp hdis hcf hmiss hsrv
  have ehit : ∀ t : Int, t < t1 + w.serverTTL.getD defaultCacheTTL →
      check { env := w.env, now := t,
              cache := (writeCache w.cache p.CacheFile
                ⟨t1 + w.serverTTL.getD defaultCacheTTL, applyOutdated resp p⟩),
              serverResult := w.serverResult, serverTTL := w.serverTTL,
              reportOk := w.reportOk } p
        = (Except.ok (applyOutdated resp p),
           { env := w.env, now := t,
             cache := (writeCache w.cache p.CacheFile
               ⟨t1 + w.serverTTL.getD defaultCacheTTL, applyOutdated resp p⟩),
             serverResult := w.serverResult, serverTTL := w.serverTTL,
             reportOk := w.reportOk },
           [Event.fileRead p.CacheFile]) := by
    intro t ht
    exact check_cache_hit_eq _ p _ _ hdis hcf (by simp [writeCache, lookupCache]) ht
  refine ⟨applyOutdated resp p, ?_, ?_, ?_⟩ <;>
    simp [checkSeq, e1, ehit t2 h2, ehit t3 h3, ehit t4 h4, ehit t5 h5,
      isNetworkEv]

theorem check_five_calls_one_network_witness :
    ∃ r : CheckResponse,
      ((checkSeq testWorld testParams [0, 1, 2, 3, 4]).1).map Prod.fst
        = [Except.ok r, Except.ok r, Except.ok r, Except.ok r, Except.ok r]
      ∧ (((checkSeq testWorld testParams [0, 1, 2, 3, 4]).1).map Prod.snd).flatten.countP
          isNetworkEv = 1
      ∧ ∀ pr ∈ ((checkSeq testWorld testParams [0, 1, 2, 3, 4]).1).drop 1,
          pr.2.countP isNetworkEv = 0 :=
  check_five_calls_one_network testWorld testParams testServerResponse 0 1 2 3 4
    rfl (by decide) rfl rfl (by decide) (by decide) (by decide) (by decide)

/-- Claim C3 counterexample: with an existing config directory the signature
file path is the fixed `<config-dir>/soloio.sig`; the file name does not
incorporate the product — for the test product it is not `test.sig`. -/
theorem getSigfile_no_product_in_name :
    getSigfile fsAllOk envHome = ("/home/u/.soloio/soloio.sig")
  ∧ ("/home/u/.soloio/soloio.sig" : String) ≠ ("/home/u/.soloio/test.sig") := by
  constructor
  · rfl
  · decide

theorem configDir_shape (fs : Fs) (env : Env) :
    configDir fs env = Except.ok (homeDir env ++ ("/.soloio"))
  ∨ configDir fs env = Except.error () := by
  cases h : fs.stat (homeDir env ++ ("/.soloio")) with
  | found => left; simp [configDir, h]
  | notExist =>
    by_cases hm : fs.mkdirOk (homeDir env ++ ("/.soloio"))
    · left; simp [configDir, h, hm]
    · right; simp [configDir, h, hm]
  | statError => right; simp [configDir, h]

/-- Claim C3 amended: the signature file path is the deterministic
`<config-dir>/soloio.sig` with a fixed file name (no product name in it),
and it falls back to the home-directory dotfile exactly when `configDir`
fails (the directory cannot be created or cannot be stat'ed). -/
theorem getSigfile_fixed_name_fallback (fs : Fs) (env : Env) :
    (configDir fs env = Except.ok (homeDir env ++ ("/.soloio"))
      ∧ getSigfile fs env = homeDir env ++ ("/.soloio") ++ ("/soloio.sig"))
  ∨ (configDir fs env = Except.error ()
      ∧ getSigfile fs env = homeDir env ++ ("/.soloio.sig")) := by
  rcases configDir_shape fs env with h | h
  · left
    exact ⟨h, by unfold getSigfile; rw [h]⟩
  · right
    exact ⟨h, by unfold getSigfile; rw [h]⟩

/-- Claim C4: the signature used for a check is the stored one when readable,
the freshly generated one when reading fails, and the fixed sentinel
`"siggenerror"` only when both fail; check params are built in every case. -/
theorem getCheckInputs_signature_fallback (product version : String)
    (s1 s2 : Except Unit String) :
    (∀ s, s1 = Except.ok s →
      (getCheckInputs product version s1 s2).1.Signature = s)
  ∧ (∀ s, s1 = Except.error () → s2 = Except.ok s →
      (getCheckInputs product version s1 s2).1.Signature = s)
  ∧ (s1 = Except.error () → s2 = Except.error () →
      (getCheckInputs product version s1 s2).1.Signature = ("siggenerror"))
  ∧ (getCheckInputs product version s1 s2).1.Product = product
  ∧ (getCheckInputs product version s1 s2).1.Version = version := by
  refine ⟨?_, ?_, ?_, ?_, ?_⟩ <;>
    cases s1 <;> cases s2 <;> simp [getCheckInputs]

theorem getCheckInputs_signature_fallback_witness :
    (getCheckInputs ("p") ("v") (Except.error ()) (Except.error ())).1.Signature
      = ("siggenerror") :=
  (getCheckInputs_signature_fallback ("p") ("v") (Except.error ())
    (Except.error ())).2.2.1 rfl rfl

/-- Claim C5 counterexample: the spec's prose formula
`interval/2 + random(0, interval)` disagrees with the embedded stagger (18h
versus 12h at draw 0 for a 24-hour interval), and at draw 23h it produces
35h, escaping the [18h, 30h] range the spec itself and the in-source test
require — the claim's two halves cannot both hold. -/
theorem stagger_spec_formula_refuted :
    staggerSpecFormula (24 * hourNs) 0 ≠ randomStagger (24 * hourNs) 2 0
  ∧ 30 * hourNs < staggerSpecFormula (24 * hourNs) (23 * hourNs) := by
  constructor <;> decide

/-- Claim C5 amended: the initial stagger equals `3·interval/4` plus a random
value in `[0, interval/divisor)`; for a 24-hour interval with divisor 2 the
first delay lies in `[18h, 30h)`. -/
theorem randomStagger_three_quarters (draw : Nat) :
    randomStagger (24 * hourNs) 2 draw = 18 * hourNs + draw % (12 * hourNs)
  ∧ 18 * hourNs ≤ randomStagger (24 * hourNs) 2 draw
  ∧ randomStagger (24 * hourNs) 2 draw < 30 * hourNs := by
  have hmod : draw % (12 * hourNs) < 12 * hourNs :=
    Nat.mod_lt _ (by norm_num [hourNs])
  have heq : randomStagger (24 * hourNs) 2 draw
      = 18 * hourNs + draw % (12 * hourNs) := by
    norm_num [randomStagger, hourNs]
  refine ⟨heq, ?_, ?_⟩
  · rw [heq]; exact Nat.le_add_right _ _
  · rw [heq]
    calc 18 * hourNs + draw % (12 * hourNs)
        < 18 * hourNs + 12 * hourNs := Nat.add_lt_add_left hmod _
      _ = 30 * hourNs := by ring

/-- Claim C6: every `randomStagger` call with a 24-hour interval — for any
divisor argument between 2 and the interval, covering the test's 10 and the
spec's 2 — and any random draw returns a duration in `[18h, 30h]`. -/
theorem randomStagger_bounds (d draw : Nat) (hd : 2 ≤ d)
    (hI : d ≤ 24 * hourNs) :
    18 * hourNs ≤ randomStagger (24 * hourNs) d draw
  ∧ randomStagger (24 * hourNs) d draw ≤ 30 * hourNs := by
  have hd0 : 0 < d := by omega
  have hpos : 0 < 24 * hourNs / d := Nat.div_pos hI hd0
  have hmod : draw % (24 * hourNs / d) < 24 * hourNs / d := Nat.mod_lt _ hpos
  have hle : 24 * hourNs / d ≤ 24 * hourNs / 2 := Nat.div_le_div_left hd (by norm_num)
  have h2 : 24 * hourNs / 2 = 12 * hourNs := by norm_num [hourNs]
  have h4 : 3 * (24 * hourNs / 4) = 18 * hourNs := by norm_num [hourNs]
  unfold randomStagger
  constructor
  · rw [h4]; exact Nat.le_add_right _ _
  · rw [h4]
    have hm12 : draw % (24 * hourNs / d) ≤ 12 * hourNs :=
      le_of_lt (lt_of_lt_of_le hmod (h2 ▸ hle))
    calc 18 * hourNs + draw % (24 * hourNs / d)
        ≤ 18 * hourNs + 12 * hourNs := Nat.add_le_add_left hm12 _
      _ = 30 * hourNs := by ring

theorem randomStagger_bounds_witness :
    18 * hourNs ≤ randomStagger (24 * hourNs) 10 0
  ∧ randomStagger (24 * hourNs) 10 0 ≤ 30 * hourNs :=
  randomStagger_bounds 10 0 (by norm_num) (by norm_num [hourNs])

/-- Claim C7: `reportRequest` on `{Signature := "sig", Product := "prod"}`
succeeds with a POST whose URL path ends in `/telemetry/prod`, whose body is
the JSON encoding of the full params — decoding it yields the signature back —
and whose construction performs no I/O at all. -/
theorem reportRequest_builds_telemetry_post :
    ∃ req : HttpRequest,
      (reportRequest {} { Signature := ("sig"), Product := ("prod") }).1
        = Except.ok req
      ∧ req.method = ("POST")
      ∧ req.path = ("https://checkpoint.solo.io/telemetry/prod")
      ∧ req.body = encodeReportParams { Signature := ("sig"), Product := ("prod") }
      ∧ (decodeReportParams req.body).Signature = ("sig")
      ∧ (reportRequest {} { Signature := ("sig"), Product := ("prod") }).2
          = ([] : List Event) := by
  exact ⟨_, rfl, rfl, by decide, rfl, by decide, rfl⟩

/-- Claim C8: a scheduler constructed while the Disable Gate is set yields a
valid handle, produces no events at all (no callback, no network, no file
I/O) over any number of ticks, and can be safely closed, staying silent. -/
theorem checkInterval_disabled_noop (env : Env) (p : CheckParams) (i : Nat)
    (w : World) (n m : Nat) (hd : isDisabled env = true) :
    (schedulerRun (checkInterval env p i) w n).2 = ([] : List Event)
  ∧ (schedulerRun (closeHandle (checkInterval env p i)) w m).2 = ([] : List Event)
  ∧ (closeHandle (checkInterval env p i)).stopped = true := by
  have htick : ∀ v : World,
      schedulerTick (checkInterval env p i) v = (v, ([] : List Event)) := by
    intro v
    simp [schedulerTick, checkInterval, hd]
  have htick2 : ∀ v : World,
      schedulerTick (closeHandle (checkInterval env p i)) v
        = (v, ([] : List Event)) := by
    intro v
    simp [schedulerTick, closeHandle, checkInterval]
  refine ⟨?_, ?_, rfl⟩
  · induction n generalizing w with
    | zero => rfl
    | succ k ih => simp [schedulerRun, htick, ih]
  · induction m generalizing w with
    | zero => rfl
    | succ k ih => simp [schedulerRun, htick2, ih]

theorem checkInterval_disabled_noop_witness :
    (schedulerRun (checkInterval { CHECKPOINT_DISABLE := ("1") } testParams
        (500 * 1000000)) testWorld 3).2 = ([] : List Event)
  ∧ (schedulerRun (closeHandle (checkInterval { CHECKPOINT_DISABLE := ("1") }
        testParams (500 * 1000000))) testWorld 3).2 = ([] : List Event)
  ∧ (closeHandle (checkInterval { CHECKPOINT_DISABLE := ("1") } testParams
        (500 * 1000000))).stopped = true :=
  checkInterval_disabled_noop { CHECKPOINT_DISABLE := ("1") } testParams
    (500 * 1000000) testWorld 3 3 rfl

/-- Claim C9: on a live setup, the background sequence spawned by `Start`
issues the telemetry report strictly before the immediate check — for every
report outcome and every check outcome, so a failure of one never suppresses
the other — while the caller's own path performs no network activity and
still holds a live scheduler handle. -/
theorem start_report_before_first_check (fs : Fs) (w : World)
    (name version : String) (s1 s2 : Except Unit String)
    (hd : isDisabled w.env = false) :
    (∃ ru, (Start fs w name version s1 s2).backgroundEvents.head?
        = some (Event.networkReport ru))
  ∧ (Start fs w name version s1 s2).backgroundEvents.tail.countP isCheckEv = 1
  ∧ (Start fs w name version s1 s2).backgroundEvents.countP isReportEv = 1
  ∧ (Start fs w name version s1 s2).backgroundEvents.countP isCheckEv = 1
  ∧ (Start fs w name version s1 s2).callerEvents.countP isNetworkEv = 0
  ∧ (Start fs w name version s1 s2).handle.stopped = false := by
  refine ⟨⟨reportURL w.env name, ?_⟩, ?_, ?_, ?_, ?_, ?_⟩ <;>
    cases hs : w.serverResult <;> cases s1 <;>
      simp [Start, callReport, report, hd, callCheckOnceNow, check, checkRemote,
        hs, getCheckInputs, getCheckInputsEvents, checkInterval, isReportEv,
        isCheckEv, isNetworkEv]

theorem start_report_before_first_check_witness :
    (∃ ru,
        (Start fsAllOk testWorld ("test") ("1.0") (Except.ok ("abc"))
            (Except.ok ("abc"))).backgroundEvents.head?
          = some (Event.networkReport ru))
  ∧ (Start fsAllOk testWorld ("test") ("1.0") (Except.ok ("abc"))
        (Except.ok ("abc"))).backgroundEvents.tail.countP isCheckEv = 1
  ∧ (Start fsAllOk testWorld ("test") ("1.0") (Except.ok ("abc"))
        (Except.ok ("abc"))).backgroundEvents.countP isReportEv = 1
  ∧ (Start fsAllOk testWorld ("test") ("1.0") (Except.ok ("abc"))
        (Except.ok ("abc"))).backgroundEvents.countP isCheckEv = 1
  ∧ (Start fsAllOk testWorld ("test") ("1.0") (Except.ok ("abc"))
        (Except.ok ("abc"))).callerEvents.countP isNetworkEv = 0
  ∧ (Start fsAllOk testWorld ("test") ("1.0") (Except.ok ("abc"))
        (Except.ok ("abc"))).handle.stopped = false :=
  start_report_before_first_check fsAllOk testWorld ("test") ("1.0")
    (Except.ok ("abc")) (Except.ok ("abc")) rfl

/-- Claim C10: the notification callback built by `getCheckInputs` produces
output exactly when the check returned no error, the response is flagged
outdated, the advertised current version is non-empty, and it differs from
the caller's version; in every other case it stays silent. -/
theorem getCheckInputs_callback_condition (product version : String)
    (s1 s2 : Except Unit String) (resp : CheckResponse) (err : Option String) :
    ((getCheckInputs product version s1 s2).2 resp err).isSome = true
      ↔ (err = none ∧ resp.Outdated = true ∧ resp.CurrentVersion ≠ ("")
          ∧ resp.CurrentVersion ≠ version) := by
  cases err with
  | some e => simp [getCheckInputs]
  | none =>
    simp only [getCheckInputs]
    split
    next h =>
      simp only [Bool.and_eq_true, bne_iff_ne] at h
      simp [h.1.1, h.1.2, h.2]
    next h =>
      simp only [Bool.and_eq_true, bne_iff_ne] at h
      simp only [Option.isSome_none]
      constructor
      · intro hFalse
        exact absurd hFalse (by simp)
      · intro hAll
        exact absurd (⟨⟨hAll.2.1, hAll.2.2.1⟩, hAll.2.2.2⟩ :
          (resp.Outdated = true ∧ resp.CurrentVersion ≠ (""))
            ∧ resp.CurrentVersion ≠ version) (by tauto)

end Checkpoint
